import Mathlib

/-!
Verification of the zen-options-trader strategy (src/strategy.py).

The Python source is shallowly embedded below. Prices and timestamps are
modelled as rationals (timestamps in minutes), Python `int(...)` truncation
as `pyInt`, Python exceptions (the `IndexError` raised by `df.index[0]` /
`.iloc[-1]` on an empty frame) as `Except PyErr`, and the process-wide
configuration dictionary `C` as the structure `Config`.
-/

namespace ZenOptions

/-- One OHLC bar (a row of the dataframe produced by `get_bars`). `ts` is the
bar's timestamp, in minutes. -/
structure Bar where
  ts : ℚ
  open_ : ℚ
  high : ℚ
  low : ℚ
  close : ℚ
deriving DecidableEq

/-- A candle direction, the value of `'up' if close > open else 'down'`. -/
inductive Dir where
  | up
  | down
deriving DecidableEq

/-- Python exceptions that the embedded code can raise. -/
inductive PyErr where
  | indexError
deriving DecidableEq

/-- The configuration dictionary `C` (strategy.py lines 15-31): values read
from the environment once at startup. `sell_pct` embeds the key
`partial_sell_pct` (env var PARTIAL_SELL_PCT). -/
structure Config where
  symbols : List String
  position_usd : ℚ
  ignore_minutes : ℤ
  otm_threshold : ℚ
  exp_days_ahead : ℤ
  mode : String
  take_profit_pct : ℚ
  sell_pct : ℚ
  stop_loss_pct : ℚ
  ib_host : String
  ib_port : ℤ

/-- Python `int(x)` on a float/rational: truncation toward zero. -/
def pyInt (q : ℚ) : ℤ :=
  if q < 0 then ⌈q⌉ else ⌊q⌋

/-- Direction of a candle (strategy.py lines 82-83):
`'up' if close > open else 'down'`. -/
def candleDir (b : Bar) : Dir :=
  if b.close > b.open_ then Dir.up else Dir.down

/-- The trigger condition of strategy.py lines 85-87: directions match and the
current close breaks out beyond the previous candle's extreme. -/
def triggerHit (prev curr : Bar) : Bool :=
  candleDir prev == candleDir curr
    && ((candleDir prev == Dir.up && decide (curr.close > prev.high))
        || (candleDir prev == Dir.down && decide (curr.close < prev.low)))

/-- The loop of strategy.py lines 79-90: `prev` is the reference candle
(`trigger` in the source), updated to the current candle after every
comparison; the first breakout's timestamp and direction are returned. -/
def scanTrigger : Bar → List Bar → Option (ℚ × Dir)
  | _, [] => none
  | prev, curr :: rest =>
    if triggerHit prev curr then some (curr.ts, candleDir prev)
    else scanTrigger curr rest

/-- The warm-up filter of strategy.py line 76:
`df[df.index >= df.index[0] + pd.Timedelta(minutes=C["ignore_minutes"])]`
(empty input gives the empty frame; the caller raises before using this). -/
def warmupFiltered (cfg : Config) (df : List Bar) : List Bar :=
  match df with
  | [] => []
  | b0 :: _ => df.filter (fun b => decide (b0.ts + (cfg.ignore_minutes : ℚ) ≤ b.ts))

/-- `find_trigger` (strategy.py lines 75-90). On the empty frame,
`df.index[0]` raises `IndexError` before the `df2.empty` check is reached;
otherwise: warm-up filter, `(None, None)` if nothing remains, else scan from
the second remaining bar. -/
def find_trigger (cfg : Config) (df : List Bar) : Except PyErr (Option (ℚ × Dir)) :=
  match df with
  | [] => Except.error PyErr.indexError
  | _ :: _ =>
    match warmupFiltered cfg df with
    | [] => Except.ok none
    | first :: rest => Except.ok (scanTrigger first rest)

/-- `size` (strategy.py lines 93-94):
`int(C["position_usd"] / (price * 100)) if price and price > 0 else 0`
(`price` is truthy iff it is nonzero). -/
def size (cfg : Config) (price : ℚ) : ℤ :=
  if price ≠ 0 ∧ 0 < price then pyInt (cfg.position_usd / (price * 100)) else 0

/-- The strike computation inside `select_option` (strategy.py lines 100-102):
candidate `ceil`/`floor` by direction, replaced by `int(price) ± 1` when
farther than the OTM threshold from the price. -/
def strikeFor (cfg : Config) (direction : Dir) (price : ℚ) : ℤ :=
  let strike : ℤ := if direction = Dir.up then ⌈price⌉ else ⌊price⌋
  if |(strike : ℚ) - price| > cfg.otm_threshold then
    pyInt price + (if direction = Dir.up then 1 else -1)
  else strike

/-- The right computation in `select_option` (strategy.py line 103). -/
def rightFor (direction : Dir) : String :=
  if direction = Dir.up then "CALL" else "PUT"

/-- The contract descriptor built by `select_option` (expiry, a pure function
of the wall clock and `exp_days_ahead`, is not modelled). -/
structure OptionContract where
  symbol : String
  strike : ℤ
  right : String
deriving DecidableEq

/-- `select_option` (strategy.py lines 97-104): the reference price is
`bars['close'].iloc[-1]`, which raises `IndexError` on an empty frame. -/
def select_option (cfg : Config) (sym : String) (direction : Dir) (bars : List Bar) :
    Except PyErr OptionContract :=
  match bars.getLast? with
  | none => Except.error PyErr.indexError
  | some lastBar =>
    Except.ok { symbol := sym
              , strike := strikeFor cfg direction lastBar.close
              , right := rightFor direction }

/-- The bracket computed in the live branch of `place_orders`
(strategy.py lines 121-123): take-profit and stop-loss limit prices, the
partial take-profit quantity `int(qty * C["partial_sell_pct"])`, and the
full stop-loss quantity `qty`. -/
structure BracketSpec where
  tpPrice : ℚ
  slPrice : ℚ
  tpQty : ℤ
  slQty : ℤ
deriving DecidableEq

/-- strategy.py lines 121-125: the prices and quantities of the two OCA exit
orders derived from the entry fill. -/
def bracket (cfg : Config) (fill : ℚ) (qty : ℤ) : BracketSpec :=
  { tpPrice := fill * (1 + cfg.take_profit_pct)
  , slPrice := fill * (1 - cfg.stop_loss_pct)
  , tpQty := pyInt ((qty : ℚ) * cfg.sell_pct)
  , slQty := qty }

/-- Outcome of the body of the per-symbol loop of `run_strategy`
(strategy.py lines 155-172) when no exception escapes. -/
inductive SymbolOutcome where
  | noTrigger
  | qtySkip (qty : ℤ)
  | ordered (contract : OptionContract) (qty : ℤ)
deriving DecidableEq

/-- The body of the per-symbol loop of `run_strategy` (strategy.py lines
155-172), with `bars` the frame returned by `get_bars`: find the trigger
(line 156), continue on no trigger (157-160), else select the option
contract (166), size from `bars['close'].iloc[-1]` (167), skip when the
quantity is below 1 (168-171), else place the orders (172). Any `IndexError`
raised along the way propagates to the caller. -/
def processSymbol (cfg : Config) (sym : String) (bars : List Bar) :
    Except PyErr SymbolOutcome :=
  match find_trigger cfg bars with
  | Except.error e => Except.error e
  | Except.ok none => Except.ok SymbolOutcome.noTrigger
  | Except.ok (some (_, direction)) =>
    match select_option cfg sym direction bars with
    | Except.error e => Except.error e
    | Except.ok contract =>
      match bars.getLast? with
      | none => Except.error PyErr.indexError
      | some lastBar =>
        let qty := size cfg lastBar.close
        if qty < 1 then Except.ok (SymbolOutcome.qtySkip qty)
        else Except.ok (SymbolOutcome.ordered contract qty)

/-- Observable control-flow events of one orchestration pass. -/
inductive Event where
  | symbolDone (sym : String) (outcome : SymbolOutcome)
  | symbolError (sym : String) (e : PyErr)
  | eodCleanup
deriving DecidableEq

/-- The event the `try`/`except` of strategy.py lines 154-176 records for one
symbol: the loop body's outcome, or the logged exception. -/
def symbolEvent (cfg : Config) (data : String → List Bar) (sym : String) : Event :=
  match processSymbol cfg sym (data sym) with
  | Except.ok o => Event.symbolDone sym o
  | Except.error e => Event.symbolError sym e

/-- The `for sym in C["symbols"]` loop of strategy.py lines 153-176: each
symbol is processed in order inside `try`/`except`, so an exception is
logged and the loop moves on. -/
def runSymbols (cfg : Config) (data : String → List Bar) : List String → List Event
  | [] => []
  | s :: rest => symbolEvent cfg data s :: runSymbols cfg data rest

/-- `run_strategy` (strategy.py lines 149-180) as its event trace: the
per-symbol loop followed by the unconditional `eod_cleanup(ib)` call of
line 178. `data` gives the bars `get_bars` returns for each symbol. -/
def run_strategy (cfg : Config) (data : String → List Bar) : List Event :=
  runSymbols cfg data cfg.symbols ++ [Event.eodCleanup]

/-- A broker (ib_insync) operation: anything that talks to the live session. -/
inductive BrokerOp where
  | connect (host : String) (port : ℤ)
  | reqHistoricalData (sym : String)
  | placeMarketOrder (c : OptionContract) (side : String) (qty : ℤ)
  | placeLimitOrder (c : OptionContract) (side : String) (qty : ℤ) (price : ℚ)
  | cancelOrder (oid : ℤ)
  | disconnect
deriving DecidableEq

/-- Broker operations of `connect_ib` (strategy.py lines 47-54): a live
connect unless the mode is DUMMY. -/
def connect_ib_ops (cfg : Config) : List BrokerOp :=
  if cfg.mode ≠ "DUMMY" then [BrokerOp.connect cfg.ib_host cfg.ib_port] else []

/-- Broker operations of `get_bars` (strategy.py lines 57-72): a historical
data request unless the mode is DUMMY (which synthesizes bars locally). -/
def get_bars_ops (cfg : Config) (sym : String) : List BrokerOp :=
  if cfg.mode = "DUMMY" then [] else [BrokerOp.reqHistoricalData sym]

/-- Broker operations of `place_orders` (strategy.py lines 107-129): nothing
when the quantity is below 1, a log/print in DUMMY mode, else the market
entry followed by the two OCA limit exits (`fill` is the average fill price
reported by the broker). -/
def place_orders_ops (cfg : Config) (contract : OptionContract) (qty : ℤ) (fill : ℚ) :
    List BrokerOp :=
  if qty < 1 then []
  else if cfg.mode = "DUMMY" then []
  else
    let b := bracket cfg fill qty
    [BrokerOp.placeMarketOrder contract "BUY" qty
    , BrokerOp.placeLimitOrder contract "SELL" b.tpQty b.tpPrice
    , BrokerOp.placeLimitOrder contract "SELL" b.slQty b.slPrice]

/-- Broker operations of `eod_cleanup` (strategy.py lines 132-146):
nothing before the cutoff, a log/print in DUMMY mode, else cancel every
open order, flatten every nonzero position with an opposing market order,
and disconnect. `beforeCutoff`, `openOrders` and `positions` abstract the
wall clock and the broker-side state. -/
def eod_cleanup_ops (cfg : Config) (beforeCutoff : Bool) (openOrders : List ℤ)
    (positions : List (OptionContract × ℤ)) : List BrokerOp :=
  if beforeCutoff then []
  else if cfg.mode = "DUMMY" then []
  else
    openOrders.map BrokerOp.cancelOrder
      ++ (positions.filter (fun p => p.2 ≠ 0)).map
          (fun p => BrokerOp.placeMarketOrder p.1 (if 0 < p.2 then "SELL" else "BUY") |p.2|)
      ++ [BrokerOp.disconnect]

/-- Broker operations of one symbol iteration of `run_strategy`: the bar
fetch, then — when the loop body reaches `place_orders` with an order to
place — the entry and bracket submissions. -/
def symbol_ops (cfg : Config) (sym : String) (bars : List Bar) (fill : ℚ) : List BrokerOp :=
  get_bars_ops cfg sym ++
    match processSymbol cfg sym bars with
    | Except.ok (SymbolOutcome.ordered c q) => place_orders_ops cfg c q fill
    | _ => []

/-- Broker operations of a whole `run_strategy` pass (strategy.py lines
149-180): connect, the per-symbol loop, then EOD cleanup. `data` and
`fills` abstract the bars and fill prices the environment provides. -/
def run_strategy_ops (cfg : Config) (data : String → List Bar) (fills : String → ℚ)
    (beforeCutoff : Bool) (openOrders : List ℤ)
    (positions : List (OptionContract × ℤ)) : List BrokerOp :=
  connect_ib_ops cfg
    ++ (cfg.symbols.map (fun s => symbol_ops cfg s (data s) (fills s))).flatten
    ++ eod_cleanup_ops cfg beforeCutoff openOrders positions

/-- The configuration built from the environment defaults of strategy.py
lines 15-31 (DUMMY mode, $10000 budget, 15-minute warm-up, OTM threshold 1,
10% take-profit and stop-loss, 90% partial sell). -/
def cfgD : Config :=
  { symbols := ["SPY"]
  , position_usd := 10000
  , ignore_minutes := 15
  , otm_threshold := 1
  , exp_days_ahead := 1
  , mode := "DUMMY"
  , take_profit_pct := 1/10
  , sell_pct := 9/10
  , stop_loss_pct := 1/10
  , ib_host := "127.0.0.1"
  , ib_port := 7497 }

/-- `cfgD` with the warm-up window disabled (IGNORE_MINUTES=0). -/
def cfg0 : Config :=
  { cfgD with ignore_minutes := 0 }

/-- The four-bar scenario of the spec (09:30-09:33 as minutes 570-573,
opens/closes 400→401, 401→399, 399.5→399.6, 399.6→399.7), parametrized by
the high/low values the scenario leaves unspecified. -/
def scenarioBars (h1 l1 h2 l2 h3 l3 h4 l4 : ℚ) : List Bar :=
  [ Bar.mk 570 400 h1 l1 401
  , Bar.mk 571 401 h2 l2 399
  , Bar.mk 572 (799/2) h3 l3 (1998/5)
  , Bar.mk 573 (1998/5) h4 l4 (3997/10) ]

/-! ## Helper lemmas -/

theorem triggerHit_dir_eq {prev curr : Bar} (h : triggerHit prev curr = true) :
    candleDir prev = candleDir curr := by
  have h1 := (Bool.and_eq_true _ _).mp h |>.1
  exact beq_iff_eq.mp h1

theorem scanTrigger_eq_find (rest : List Bar) : ∀ prev : Bar,
    scanTrigger prev rest
      = (((prev :: rest).zip rest).find? (fun pc => triggerHit pc.1 pc.2)).map
          (fun pc => (pc.2.ts, candleDir pc.2)) := by
  induction rest with
  | nil => intro prev; rfl
  | cons c rest ih =>
    intro prev
    by_cases h : triggerHit prev c = true
    · simp [scanTrigger, h, List.find?_cons_of_pos, triggerHit_dir_eq h]
    · have hb : triggerHit prev c = false := by simpa using h
      simp [scanTrigger, hb, ih c, List.find?_cons]

theorem pyInt_of_nonneg {q : ℚ} (h : 0 ≤ q) : pyInt q = ⌊q⌋ := by
  simp [pyInt, not_lt.mpr h]

theorem size_eq_floor_of_pos (cfg : Config) (p : ℚ) (hB : 0 ≤ cfg.position_usd)
    (hp : 0 < p) : size cfg p = ⌊cfg.position_usd / (p * 100)⌋ := by
  have hpos : (0:ℚ) < p * 100 := by positivity
  have hq : (0:ℚ) ≤ cfg.position_usd / (p * 100) := div_nonneg hB hpos.le
  simp [size, ne_of_gt hp, hp, pyInt_of_nonneg hq]

/-! ## Claims -/

/-- C3. Position sizer postcondition: for every budget `B ≥ 0` and price
`p > 0`, `size p = ⌊B / (p * 100)⌋`, hence `size p * p * 100 ≤ B`; and for
every non-positive price, `size p = 0`. -/
theorem size_postcondition (cfg : Config) (p : ℚ) (hB : 0 ≤ cfg.position_usd) :
    (0 < p → size cfg p = ⌊cfg.position_usd / (p * 100)⌋ ∧
      (size cfg p : ℚ) * p * 100 ≤ cfg.position_usd) ∧
    (p ≤ 0 → size cfg p = 0) := by
  constructor
  · intro hp
    have hpos : (0:ℚ) < p * 100 := by positivity
    have hsz := size_eq_floor_of_pos cfg p hB hp
    refine ⟨hsz, ?_⟩
    rw [hsz]
    have h1 : (⌊cfg.position_usd / (p * 100)⌋ : ℚ) ≤ cfg.position_usd / (p * 100) :=
      Int.floor_le _
    calc (⌊cfg.position_usd / (p * 100)⌋ : ℚ) * p * 100
        = (⌊cfg.position_usd / (p * 100)⌋ : ℚ) * (p * 100) := by ring
      _ ≤ (cfg.position_usd / (p * 100)) * (p * 100) :=
          mul_le_mul_of_nonneg_right h1 hpos.le
      _ = cfg.position_usd := div_mul_cancel₀ _ (ne_of_gt hpos)
  · intro hp
    have hcond : ¬(p ≠ 0 ∧ 0 < p) := by
      rintro ⟨-, h2⟩
      exact absurd hp (not_le.mpr h2)
    simp [size, hcond]

/-- C3 witness: budget 10000, price 50 gives quantity 2 with
2 × 50 × 100 ≤ 10000, and price -1 gives 0. -/
theorem size_postcondition_witness :
    ((0:ℚ) < 50 → size cfgD 50 = ⌊cfgD.position_usd / (50 * 100)⌋ ∧
      (size cfgD 50 : ℚ) * 50 * 100 ≤ cfgD.position_usd) ∧
    ((50:ℚ) ≤ 0 → size cfgD 50 = 0) :=
  size_postcondition cfgD 50 (by norm_num [cfgD])

/-- C9. Sizer monotonicity: for a fixed nonnegative budget,
`0 < p1 < p2` implies `size p1 ≥ size p2`. -/
theorem size_antitone (cfg : Config) (p1 p2 : ℚ) (hB : 0 ≤ cfg.position_usd)
    (h1 : 0 < p1) (h12 : p1 < p2) : size cfg p2 ≤ size cfg p1 := by
  have h2 : 0 < p2 := h1.trans h12
  rw [size_eq_floor_of_pos cfg p1 hB h1, size_eq_floor_of_pos cfg p2 hB h2]
  apply Int.floor_le_floor
  have hpos1 : (0:ℚ) < p1 * 100 := by positivity
  have hle : p1 * 100 ≤ p2 * 100 := by nlinarith
  exact div_le_div_of_nonneg_left hB hpos1 hle |>.trans_eq rfl

/-- C9 witness: with budget 10000, size at 50 is at most size at 25. -/
theorem size_antitone_witness : size cfgD 50 ≤ size cfgD 25 :=
  size_antitone cfgD 25 50 (by norm_num [cfgD]) (by norm_num) (by norm_num)

/-- C4. Bracket computation: for every fill price, quantity `q ≥ 1` and
partial-sell fraction in [0,1], the take-profit price is
`fill × (1 + take_profit_pct)`, the stop-loss price is
`fill × (1 − stop_loss_pct)`, the take-profit quantity is
`⌊q × partial_sell_pct⌋`, and the stop-loss quantity is the full `q`;
consequently tpQty ≤ slQty ≤ q. -/
theorem bracket_postcondition (cfg : Config) (fill : ℚ) (qty : ℤ)
    (hq : 1 ≤ qty) (h0 : 0 ≤ cfg.sell_pct) (h1 : cfg.sell_pct ≤ 1) :
    (bracket cfg fill qty).tpPrice = fill * (1 + cfg.take_profit_pct) ∧
    (bracket cfg fill qty).slPrice = fill * (1 - cfg.stop_loss_pct) ∧
    (bracket cfg fill qty).tpQty = ⌊(qty : ℚ) * cfg.sell_pct⌋ ∧
    (bracket cfg fill qty).slQty = qty ∧
    (bracket cfg fill qty).tpQty ≤ (bracket cfg fill qty).slQty ∧
    (bracket cfg fill qty).slQty ≤ qty := by
  have hq0 : (0:ℚ) ≤ (qty : ℚ) := by exact_mod_cast hq.trans' (by norm_num)
  have hxy : (0:ℚ) ≤ (qty : ℚ) * cfg.sell_pct := mul_nonneg hq0 h0
  have htp : (bracket cfg fill qty).tpQty = ⌊(qty : ℚ) * cfg.sell_pct⌋ := by
    simp [bracket, pyInt_of_nonneg hxy]
  refine ⟨rfl, rfl, htp, rfl, ?_, le_refl _⟩
  rw [htp]
  show ⌊(qty : ℚ) * cfg.sell_pct⌋ ≤ qty
  have : (qty : ℚ) * cfg.sell_pct ≤ ((qty : ℤ) : ℚ) := by nlinarith
  calc ⌊(qty : ℚ) * cfg.sell_pct⌋ ≤ ⌊((qty : ℤ) : ℚ)⌋ := Int.floor_le_floor this
    _ = qty := Int.floor_intCast qty

/-- C4 witness: fill 100, quantity 10, default percentages give TP price 110
for 9 contracts and SL price 90 for all 10. -/
theorem bracket_postcondition_witness :
    (bracket cfgD 100 10).tpPrice = 100 * (1 + cfgD.take_profit_pct) ∧
    (bracket cfgD 100 10).slPrice = 100 * (1 - cfgD.stop_loss_pct) ∧
    (bracket cfgD 100 10).tpQty = ⌊(10 : ℚ) * cfgD.sell_pct⌋ ∧
    (bracket cfgD 100 10).slQty = 10 ∧
    (bracket cfgD 100 10).tpQty ≤ (bracket cfgD 100 10).slQty ∧
    (bracket cfgD 100 10).slQty ≤ 10 :=
  bracket_postcondition cfgD 100 10 (by norm_num) (by norm_num [cfgD]) (by norm_num [cfgD])

/-- C5. Option selector strike rule: for a positive last close `p`, the
candidate strike is `⌈p⌉` (up) or `⌊p⌋` (down); when the candidate is
farther than the OTM threshold from `p` the returned strike is exactly
`⌊p⌋ + 1` (up) or `⌊p⌋ - 1` (down), otherwise it is the candidate and lies
within the threshold; the right is CALL for up and PUT for down. -/
theorem select_option_strike_rule (cfg : Config) (sym : String) (direction : Dir)
    (bars : List Bar) (lb : Bar) (hlast : bars.getLast? = some lb) (hp : 0 < lb.close) :
    ∃ c, select_option cfg sym direction bars = Except.ok c ∧
      c.right = (if direction = Dir.up then "CALL" else "PUT") ∧
      (if |(((if direction = Dir.up then ⌈lb.close⌉ else ⌊lb.close⌋) : ℤ) : ℚ) - lb.close|
            > cfg.otm_threshold
       then c.strike = (if direction = Dir.up then ⌊lb.close⌋ + 1 else ⌊lb.close⌋ - 1)
       else c.strike = (if direction = Dir.up then ⌈lb.close⌉ else ⌊lb.close⌋) ∧
         |(c.strike : ℚ) - lb.close| ≤ cfg.otm_threshold) := by
  have hsel : select_option cfg sym direction bars
      = Except.ok { symbol := sym
                  , strike := strikeFor cfg direction lb.close
                  , right := rightFor direction } := by
    simp [select_option, hlast]
  refine ⟨_, hsel, rfl, ?_⟩
  have hpy : pyInt lb.close = ⌊lb.close⌋ := pyInt_of_nonneg hp.le
  cases direction with
  | up =>
    by_cases hf : |((⌈lb.close⌉ : ℤ) : ℚ) - lb.close| > cfg.otm_threshold
    · simp [strikeFor, hf, hpy]
    · simp only [strikeFor, rightFor]
      simp only [if_pos rfl] at hf ⊢
      simp [hf, not_lt.mp hf]
  | down =>
    by_cases hf : |((⌊lb.close⌋ : ℤ) : ℚ) - lb.close| > cfg.otm_threshold
    · have hne : Dir.down ≠ Dir.up := by decide
      simp [strikeFor, hf, hpy, hne]
      omega
    · have hne : Dir.down ≠ Dir.up := by decide
      simp [strikeFor, hf, hpy, hne, not_lt.mp hf]

/-- C5 witness: direction up, last close 401.2, OTM threshold 1: the strike
stays at the candidate ⌈401.2⌉ = 402. -/
theorem select_option_strike_rule_witness :
    ∃ c, select_option cfgD "SPY" Dir.up [Bar.mk 570 401 402 400 (2006/5)] = Except.ok c ∧
      c.right = (if Dir.up = Dir.up then "CALL" else "PUT") ∧
      (if |(((if Dir.up = Dir.up then ⌈(2006/5 : ℚ)⌉ else ⌊(2006/5 : ℚ)⌋) : ℤ) : ℚ) - (2006/5 : ℚ)|
            > cfgD.otm_threshold
       then c.strike = (if Dir.up = Dir.up then ⌊(2006/5 : ℚ)⌋ + 1 else ⌊(2006/5 : ℚ)⌋ - 1)
       else c.strike = (if Dir.up = Dir.up then ⌈(2006/5 : ℚ)⌉ else ⌊(2006/5 : ℚ)⌋) ∧
         |(c.strike : ℚ) - (2006/5 : ℚ)| ≤ cfgD.otm_threshold) :=
  select_option_strike_rule cfgD "SPY" Dir.up [Bar.mk 570 401 402 400 (2006/5)]
    (Bar.mk 570 401 402 400 (2006/5)) (by simp) (by norm_num)

/-- C1. Trigger detection: on a non-empty series, `find_trigger` returns the
timestamp and direction of the first bar (scanning the post-warm-up bars in
order from the second one) that forms a breakout with its immediate
predecessor — same direction and close strictly beyond the predecessor's
high (up) or low (down) — and no-trigger when no such bar exists; the
return type yields at most one trigger per run. -/
theorem find_trigger_first_breakout (cfg : Config) (df : List Bar) (h : df ≠ []) :
    find_trigger cfg df
      = Except.ok ((((warmupFiltered cfg df).zip (warmupFiltered cfg df).tail).find?
            (fun pc => triggerHit pc.1 pc.2)).map (fun pc => (pc.2.ts, candleDir pc.2))) := by
  cases df with
  | nil => exact absurd rfl h
  | cons b0 tl =>
    cases hw : warmupFiltered cfg (b0 :: tl) with
    | nil => simp [find_trigger, hw]
    | cons first rest => simp [find_trigger, hw, scanTrigger_eq_find]

/-- C1 witness: two consecutive up candles where the second closes above the
first one's high; both the code and the first-breakout characterization give
the trigger on the concrete series. -/
theorem find_trigger_first_breakout_witness :
    find_trigger cfg0 [Bar.mk 570 10 11 10 11, Bar.mk 571 11 13 11 13]
      = Except.ok ((((warmupFiltered cfg0 [Bar.mk 570 10 11 10 11, Bar.mk 571 11 13 11 13]).zip
            (warmupFiltered cfg0 [Bar.mk 570 10 11 10 11, Bar.mk 571 11 13 11 13]).tail).find?
              (fun pc => triggerHit pc.1 pc.2)).map (fun pc => (pc.2.ts, candleDir pc.2))) :=
  find_trigger_first_breakout cfg0 _ (List.cons_ne_nil _ _)

/-- C6 counterexample: on the completely empty bar series, `find_trigger`
raises `IndexError` (`df.index[0]` is evaluated before the `df2.empty`
check), so it does not return the no-trigger value `(None, None)`. -/
theorem find_trigger_empty_raises :
    find_trigger cfgD ([] : List Bar) = Except.error PyErr.indexError ∧
    find_trigger cfgD ([] : List Bar) ≠ Except.ok none :=
  ⟨rfl, fun h => Except.noConfusion h⟩

/-- C6 (amended). For every non-empty bar series in which no bars remain
after the warm-up filter, `find_trigger` returns no-trigger `(None, None)`
without raising. -/
theorem find_trigger_no_bars_after_warmup (cfg : Config) (b0 : Bar) (tl : List Bar)
    (hw : warmupFiltered cfg (b0 :: tl) = []) :
    find_trigger cfg (b0 :: tl) = Except.ok none := by
  simp [find_trigger, hw]

/-- C6 witness: a single bar inside the 15-minute warm-up window is filtered
out and `find_trigger` returns no-trigger. -/
theorem find_trigger_no_bars_after_warmup_witness :
    find_trigger cfgD [Bar.mk 570 1 1 1 1] = Except.ok none :=
  find_trigger_no_bars_after_warmup cfgD (Bar.mk 570 1 1 1 1) []
    (by norm_num [warmupFiltered, cfgD])

/-- C7 counterexample: one consistent assignment of highs/lows for the
four-bar scenario (every high is the max of open and close, every low the
min) on which `find_trigger` with ignore_minutes = 0 fires a trigger at
09:33 (minute 573) direction up — the third and fourth candles are both up
and 399.7 breaks above the third candle's high 399.6. -/
theorem scenario_fires_counterexample :
    ((401:ℚ) ≥ max 400 401 ∧ (400:ℚ) ≤ min 400 401) ∧
    ((401:ℚ) ≥ max 401 399 ∧ (399:ℚ) ≤ min 401 399) ∧
    ((1998/5:ℚ) ≥ max (799/2) (1998/5) ∧ (799/2:ℚ) ≤ min (799/2) (1998/5)) ∧
    ((3997/10:ℚ) ≥ max (1998/5) (3997/10) ∧ (1998/5:ℚ) ≤ min (1998/5) (3997/10)) ∧
    find_trigger cfg0 (scenarioBars 401 400 401 399 (1998/5) (799/2) (3997/10) (1998/5))
      = Except.ok (some ((573:ℚ), Dir.up)) := by
  refine ⟨by norm_num, by norm_num, by norm_num, by norm_num, ?_⟩
  norm_num [find_trigger, warmupFiltered, scenarioBars, cfg0, cfgD, scanTrigger,
    triggerHit, candleDir]
  decide

/-- C7 (amended). The four-bar scenario with ignore_minutes = 0 yields
no-trigger for every consistent assignment of highs and lows in which the
third bar's high is at least 399.7 (the fourth bar's close); assignments
with the third high below 399.7 instead fire an up trigger at 09:33, since
the third and fourth candles are both up. -/
theorem scenario_no_trigger (h1 l1 h2 l2 h3 l3 h4 l4 : ℚ)
    (_hc1 : h1 ≥ max 400 401) (_hc1l : l1 ≤ min 400 401)
    (_hc2 : h2 ≥ max 401 399) (_hc2l : l2 ≤ min 401 399)
    (_hc3 : h3 ≥ max (799/2) (1998/5)) (_hc3l : l3 ≤ min (799/2) (1998/5))
    (_hc4 : h4 ≥ max (1998/5) (3997/10)) (_hc4l : l4 ≤ min (1998/5) (3997/10))
    (hhigh : (3997/10 : ℚ) ≤ h3) :
    find_trigger cfg0 (scenarioBars h1 l1 h2 l2 h3 l3 h4 l4) = Except.ok none := by
  have hno : ¬ ((3997/10 : ℚ) > h3) := not_lt.mpr hhigh
  norm_num [find_trigger, warmupFiltered, scenarioBars, cfg0, cfgD, scanTrigger,
    triggerHit, candleDir, hno]
  simp

/-- C7 witness: the assignment with every high at the open/close maximum
except the third bar's high raised to 400 (≥ 399.7) yields no-trigger. -/
theorem scenario_no_trigger_witness :
    find_trigger cfg0 (scenarioBars 401 400 401 399 400 (799/2) (3997/10) (1998/5))
      = Except.ok none :=
  scenario_no_trigger 401 400 401 399 400 (799/2) (3997/10) (1998/5)
    (by norm_num) (by norm_num) (by norm_num) (by norm_num) (by norm_num)
    (by norm_num) (by norm_num) (by norm_num) (by norm_num)

theorem runSymbols_eq_map (cfg : Config) (data : String → List Bar) (l : List String) :
    runSymbols cfg data l = l.map (symbolEvent cfg data) := by
  induction l with
  | nil => rfl
  | cons s rest ih => simp [runSymbols, ih]

theorem symbolEvent_ne_eod (cfg : Config) (data : String → List Bar) (s : String) :
    symbolEvent cfg data s ≠ Event.eodCleanup := by
  unfold symbolEvent
  cases processSymbol cfg s (data s) <;> simp

/-- C2. Per-symbol isolation and unconditional EOD: the event trace of
`run_strategy` is exactly one event per configured symbol, in order — the
outcome when the body succeeds, the caught-and-logged exception otherwise —
followed by the EOD cleanup call, which therefore occurs exactly once and
last, whatever each symbol produced. -/
theorem run_strategy_isolation_eod (cfg : Config) (data : String → List Bar) :
    run_strategy cfg data = cfg.symbols.map (symbolEvent cfg data) ++ [Event.eodCleanup] ∧
    (run_strategy cfg data).count Event.eodCleanup = 1 ∧
    (run_strategy cfg data).getLast? = some Event.eodCleanup := by
  refine ⟨by simp [run_strategy, runSymbols_eq_map], ?_, ?_⟩
  · rw [run_strategy, runSymbols_eq_map, List.count_append]
    have hz : (cfg.symbols.map (symbolEvent cfg data)).count Event.eodCleanup = 0 := by
      rw [List.count_eq_zero]
      intro hmem
      obtain ⟨s, -, hs⟩ := List.mem_map.mp hmem
      exact symbolEvent_ne_eod cfg data s hs
    simp [hz]
  · simp [run_strategy, List.getLast?_concat]

theorem connect_ib_ops_dummy (cfg : Config) (h : cfg.mode = "DUMMY") :
    connect_ib_ops cfg = [] := by
  simp [connect_ib_ops, h]

theorem place_orders_ops_dummy (cfg : Config) (h : cfg.mode = "DUMMY")
    (c : OptionContract) (q : ℤ) (fill : ℚ) : place_orders_ops cfg c q fill = [] := by
  simp [place_orders_ops, h]

theorem symbol_ops_dummy (cfg : Config) (h : cfg.mode = "DUMMY")
    (sym : String) (bars : List Bar) (fill : ℚ) : symbol_ops cfg sym bars fill = [] := by
  cases hps : processSymbol cfg sym bars with
  | error e => simp [symbol_ops, get_bars_ops, h, hps]
  | ok o => cases o <;> simp [symbol_ops, get_bars_ops, h, hps, place_orders_ops_dummy cfg h]

theorem eod_cleanup_ops_dummy (cfg : Config) (h : cfg.mode = "DUMMY")
    (beforeCutoff : Bool) (openOrders : List ℤ) (positions : List (OptionContract × ℤ)) :
    eod_cleanup_ops cfg beforeCutoff openOrders positions = [] := by
  simp [eod_cleanup_ops, h]

/-- C8. Simulation isolation: in DUMMY mode a whole `run_strategy` pass
performs no broker operation at all — no connect, no historical-data
request, no market or limit order, no cancellation, no disconnect —
whatever bars, fill prices, clock and broker-side state the environment
would have provided. -/
theorem dummy_mode_no_broker_ops (cfg : Config) (data : String → List Bar)
    (fills : String → ℚ) (beforeCutoff : Bool) (openOrders : List ℤ)
    (positions : List (OptionContract × ℤ)) (h : cfg.mode = "DUMMY") :
    run_strategy_ops cfg data fills beforeCutoff openOrders positions = [] := by
  rw [run_strategy_ops, connect_ib_ops_dummy cfg h,
    eod_cleanup_ops_dummy cfg h beforeCutoff openOrders positions]
  simp [List.flatten_eq_nil_iff]
  intro xs hxs
  exact symbol_ops_dummy cfg h xs (data xs) (fills xs)

/-- C8 witness: the default DUMMY configuration produces an empty broker
operation list on a concrete run. -/
theorem dummy_mode_no_broker_ops_witness :
    run_strategy_ops cfgD (fun _ => [Bar.mk 570 10 11 10 11, Bar.mk 571 11 13 11 13])
      (fun _ => 5) false [1] [(OptionContract.mk "SPY" 13 "CALL", 2)] = [] :=
  dummy_mode_no_broker_ops cfgD _ _ false [1] [(OptionContract.mk "SPY" 13 "CALL", 2)] rfl

/-- C10. Implicit reference price: whenever a trigger fires, both the strike
selection and the position size are computed from the close of the last bar
of the series (`bars['close'].iloc[-1]`), not from the trigger candle, so
the per-symbol outcome depends only on the last close (given direction). -/
theorem reference_price_is_last_close (cfg : Config) (sym : String) (bars : List Bar)
    (lb : Bar) (t : ℚ) (d : Dir) (hlast : bars.getLast? = some lb)
    (htrig : find_trigger cfg bars = Except.ok (some (t, d))) :
    select_option cfg sym d bars
      = Except.ok { symbol := sym, strike := strikeFor cfg d lb.close, right := rightFor d } ∧
    processSymbol cfg sym bars
      = Except.ok (if size cfg lb.close < 1 then SymbolOutcome.qtySkip (size cfg lb.close)
          else SymbolOutcome.ordered
            { symbol := sym, strike := strikeFor cfg d lb.close, right := rightFor d }
            (size cfg lb.close)) := by
  have hsel : select_option cfg sym d bars
      = Except.ok { symbol := sym, strike := strikeFor cfg d lb.close, right := rightFor d } := by
    simp [select_option, hlast]
  refine ⟨hsel, ?_⟩
  simp only [processSymbol, htrig, hsel, hlast]
  split <;> rfl

/-- C10 witness: on a two-bar series triggering at the second bar, the
contract and quantity are those computed from the last close 13. -/
theorem reference_price_is_last_close_witness :
    select_option cfg0 "SPY" Dir.up [Bar.mk 570 10 11 10 11, Bar.mk 571 11 13 11 13]
      = Except.ok { symbol := "SPY", strike := strikeFor cfg0 Dir.up (13:ℚ)
                  , right := rightFor Dir.up } ∧
    processSymbol cfg0 "SPY" [Bar.mk 570 10 11 10 11, Bar.mk 571 11 13 11 13]
      = Except.ok (if size cfg0 (13:ℚ) < 1 then SymbolOutcome.qtySkip (size cfg0 (13:ℚ))
          else SymbolOutcome.ordered
            { symbol := "SPY", strike := strikeFor cfg0 Dir.up (13:ℚ), right := rightFor Dir.up }
            (size cfg0 (13:ℚ))) :=
  reference_price_is_last_close cfg0 "SPY"
    [Bar.mk 570 10 11 10 11, Bar.mk 571 11 13 11 13] (Bar.mk 571 11 13 11 13) 571 Dir.up
    (by simp)
    (by norm_num [find_trigger, warmupFiltered, scanTrigger, triggerHit, candleDir, cfg0, cfgD])

end ZenOptions
